import Mathlib

/-!
Verification development for the storage/run/config core of drakvuf-sandbox.

The development shallowly embeds three Python modules:

* `drakrun/config.py` — the `InstallInfo` installation descriptor and its
  JSON persistence (`save`/`load`);
* `drakrun/storage.py` — the storage-backend layer: the backend selector
  `get_storage_backend`, the ZFS (copy-on-write block) backend and the
  qcow2 (backing-file image) backend with their `initialize_vm0_volume`,
  `get_vm_disk_path` and `rollback_vm_storage` operations;
* `drakrun/run.py` — the `run_vm` per-worker restore orchestration.

Modelling conventions:

* Python exceptions are embedded as the `PyErr` enumeration; fallible code
  returns `Except PyErr _`.  A `try/except` that swallows an exception is
  embedded as a `match` whose error branch continues normally.
* Module-level configuration bindings that storage.py reads
  (`install_info`, `LIB_DIR`, `zfs_tank_name`) are threaded as explicit
  parameters (`tank`, `libDir`), following spec §9 which describes them as
  process-wide install info loaded once; the excerpted storage.py does not
  itself contain the binding statements.
* External tool semantics (`zfs destroy/create/clone/snapshot/rollback`,
  `qemu-img create`, `xl destroy/restore`, udev device-node
  materialization) are modelled from spec §6's collaborator command
  surfaces as explicit state transformers on small state types.
* Disk contents are abstracted to a `Content` value; "bit-for-bit
  identical" becomes equality of `Content` values.
-/

/-- Content of a volume, snapshot or image, abstracted to a single value;
equality of `Content` models byte-for-byte equality of disk state. -/
abbrev Content := Nat

/-- Python exception kinds raised (or named by the spec) in the embedded
code.  `configurationError`, `deviceNotReady` and `allocationFailed` are
modelled from the spec: §7 names these taxonomy members, but no such
exception classes exist anywhere in the source; they are included so that
claims mentioning them can be stated and compared with what the code
actually raises. -/
inductive PyErr where
  | typeError
  | keyError (key : String)
  | attributeError
  | fileNotFoundError
  | calledProcessError
  | configurationError
  | deviceNotReady
  | allocationFailed
deriving DecidableEq, Repr

/-- Lookup of the value stored under a key in an association list
(Python dictionary access / filesystem directory lookup). -/
def findVal {α : Type} (l : List (String × α)) (k : String) : Option α :=
  match l with
  | [] => none
  | (k', v) :: t => if k' = k then some v else findVal t k

/-! ## config.py — the installation descriptor -/

/-- JSON values as produced by `json.dumps`/`json.loads` for the
descriptor's field types (strings, integers, booleans and null). -/
inductive JVal where
  | null
  | str (v : String)
  | int (v : Int)
  | bool (v : Bool)
deriving DecidableEq, Repr

/-- InstallInfo dataclass from config.py lines 11-19: the installation
descriptor with its seven fields. -/
structure InstallInfo where
  storage_backend : String
  zfs_tank_name : Option String
  disk_size : String
  iso_path : String
  max_vms : Int
  enable_unattended : Bool
  iso_sha256 : Option String
deriving DecidableEq, Repr

/-- Encoding of an optional string field into JSON: `None` serializes to
`null`, a string to a JSON string. -/
def optStrJ : Option String → JVal
  | none => .null
  | some v => .str v

/-- InstallInfo.as_dict (config.py line 21): `dataclasses.asdict`
produces the field-name-to-value dictionary of the descriptor. -/
def InstallInfo.as_dict (i : InstallInfo) : List (String × JVal) :=
  [("storage_backend", .str i.storage_backend),
   ("zfs_tank_name", optStrJ i.zfs_tank_name),
   ("disk_size", .str i.disk_size),
   ("iso_path", .str i.iso_path),
   ("max_vms", .int i.max_vms),
   ("enable_unattended", .bool i.enable_unattended),
   ("iso_sha256", optStrJ i.iso_sha256)]

/-- InstallInfo.save (config.py lines 39-42): writes
`json.dumps(self.as_dict())` to install.json.  `json.dumps` followed by
`json.loads` is the identity on dictionaries of these value kinds, so the
persisted form is modelled as the dictionary itself. -/
def InstallInfo.save (i : InstallInfo) : List (String × JVal) :=
  i.as_dict

/-- Extraction of a required string field from the parsed dictionary. -/
def jStr : Option JVal → Option String
  | some (.str v) => some v
  | _ => none

/-- Extraction of an optional (nullable) string field from the parsed
dictionary: JSON `null` parses back to `None`. -/
def jOptStr : Option JVal → Option (Option String)
  | some .null => some none
  | some (.str v) => some (some v)
  | _ => none

/-- Extraction of a required integer field from the parsed dictionary. -/
def jInt : Option JVal → Option Int
  | some (.int v) => some v
  | _ => none

/-- Extraction of a required boolean field from the parsed dictionary. -/
def jBool : Option JVal → Option Bool
  | some (.bool v) => some v
  | _ => none

/-- InstallInfo.load (config.py lines 24-29): parses install.json and
rebuilds the descriptor with `InstallInfo(**install_dict)`, which requires
each of the seven fields to be present with its field's value kind. -/
def InstallInfo.load (d : List (String × JVal)) : Option InstallInfo :=
  match jStr (findVal d "storage_backend"), jOptStr (findVal d "zfs_tank_name"),
        jStr (findVal d "disk_size"), jStr (findVal d "iso_path"),
        jInt (findVal d "max_vms"), jBool (findVal d "enable_unattended"),
        jOptStr (findVal d "iso_sha256") with
  | some sb, some tank, some ds, some iso, some mv, some eu, some sha =>
      some ⟨sb, tank, ds, iso, mv, eu, sha⟩
  | _, _, _, _, _, _, _ => none

/-! ## storage.py — backend selector -/

/-- Constructed backend objects, as the selector would return them. -/
inductive BackendInstance where
  | qcow2Obj
  | zfsObj
deriving DecidableEq, Repr

/-- Python call semantics for invoking a class constructor: supplying a
number of positional arguments different from the `__init__` parameter
count (beyond `self`) raises TypeError before the constructor body runs. -/
def pyCallConstructor (paramCount argCount : Nat) (obj : BackendInstance) :
    Except PyErr BackendInstance :=
  if argCount = paramCount then .ok obj else .error .typeError

/-- Parameter count of ZfsStorageBackend.__init__ (storage.py line 46):
`def __init__(self):` — zero parameters beyond self. -/
def zfsInitParamCount : Nat := 0

/-- Parameter count of Qcow2StorageBackend.__init__ (storage.py line 131):
`def __init__(self):` — zero parameters beyond self. -/
def qcow2InitParamCount : Nat := 0

/-- get_storage_backend (storage.py lines 191-199): looks the backend name
up in the `backends` dictionary (a miss raises KeyError carrying the key)
and invokes the found class with `install_info` as one positional
argument. -/
def get_storage_backend (info : InstallInfo) : Except PyErr BackendInstance :=
  if info.storage_backend = "qcow2" then
    pyCallConstructor qcow2InitParamCount 1 .qcow2Obj
  else if info.storage_backend = "zfs" then
    pyCallConstructor zfsInitParamCount 1 .zfsObj
  else
    .error (.keyError info.storage_backend)

/-! ## storage.py — ZFS (copy-on-write block) backend -/

/-- State of the ZFS storage subsystem: writable datasets (zvols) with
their current content, immutable named snapshots with their frozen
content, and the set of device-node paths currently materialized under
/dev/zvol.  `volumes` is the writable store: a dataset present here is an
existing, writable Volume. -/
structure ZfsState where
  volumes : List (String × Content)
  snapshots : List (String × Content)
  devNodes : List String
deriving DecidableEq, Repr

/-- Dataset name `<tank>/vm-<id>` built by `os.path.join` in storage.py
(lines 97-100, 108-109); `tank` models the `zfs_tank_name` configuration
value. -/
def zfsDataset (tank : String) (vm_id : Nat) : String :=
  tank ++ "/vm-" ++ toString vm_id

/-- Worker snapshot name `<tank>/vm-<id>@booted` (storage.py line 100). -/
def zfsVmSnap (tank : String) (vm_id : Nat) : String :=
  zfsDataset tank vm_id ++ "@booted"

/-- Base snapshot name `<tank>/vm-0@booted` (storage.py line 108). -/
def zfsBaseSnap (tank : String) : String :=
  tank ++ "/vm-0@booted"

/-- Device-node path `/dev/zvol/<tank>/vm-<id>` (storage.py lines 97-99). -/
def zfsDevPath (tank : String) (vm_id : Nat) : String :=
  "/dev/zvol/" ++ zfsDataset tank vm_id

/-- Replacement of the content stored under a key in an association list,
leaving every other entry in place. -/
def setVol (l : List (String × Content)) (k : String) (c : Content) :
    List (String × Content) :=
  match l with
  | [] => []
  | (k', c') :: t => if k' = k then (k', c) :: t else (k', c') :: setVol t k c

/-- Modelled from the spec: §6 volume-manager clone command
(`zfs clone -p <snapshot> <dataset>`, storage.py lines 103-112).  Clones
the named snapshot into a new writable dataset carrying the snapshot's
content; the command fails if the source snapshot is missing or the
target dataset already exists, and `check=True` turns that failure into a
raised CalledProcessError. -/
def zfsCloneCmd (src dst : String) (s : ZfsState) : Except PyErr ZfsState :=
  match findVal s.snapshots src with
  | none => .error .calledProcessError
  | some c =>
    match findVal s.volumes dst with
    | some _ => .error .calledProcessError
    | none => .ok { s with volumes := (dst, c) :: s.volumes }

/-- Modelled from the spec: §6 volume-manager snapshot command
(`zfs snapshot <dataset>@<name>`, storage.py line 125).  Freezes the
dataset's current content under the snapshot name; fails if the dataset
is missing or the snapshot name already exists. -/
def zfsSnapshotCmd (dataset snapName : String) (s : ZfsState) :
    Except PyErr ZfsState :=
  match findVal s.volumes dataset with
  | none => .error .calledProcessError
  | some c =>
    match findVal s.snapshots snapName with
    | some _ => .error .calledProcessError
    | none => .ok { s with snapshots := (snapName, c) :: s.snapshots }

/-- Modelled from the spec: §6 volume-manager rollback command
(`zfs rollback <snapshot>`, storage.py line 127).  Resets the dataset's
content to the named snapshot's frozen content; fails if the snapshot or
the dataset is missing. -/
def zfsRollbackCmd (dataset snapName : String) (s : ZfsState) :
    Except PyErr ZfsState :=
  match findVal s.snapshots snapName, findVal s.volumes dataset with
  | some c, some _ => .ok { s with volumes := setVol s.volumes dataset c }
  | _, _ => .error .calledProcessError

/-- Bounded device-node poll (storage.py lines 114-118): the
`for _ in range(attempts)` loop sleeps 0.1s while the node is absent and
breaks once it appears.  `devDelay` models the asynchronous udev
materialization: the node is visible once `devDelay` sleep intervals have
elapsed since the clone.  Returns whether the node was seen within the
attempt budget. -/
def pollForDevice (attempts elapsed devDelay : Nat) : Bool :=
  match attempts with
  | 0 => false
  | n + 1 => if elapsed < devDelay then pollForDevice n (elapsed + 1) devDelay else true

/-- ZfsStorageBackend.rollback_vm_storage (storage.py lines 96-127).  If
the worker's device node is absent, clones the base snapshot into the
worker dataset, polls up to 120 times for the node, and on timeout logs
an error message and returns normally (the `return` on line 123 skips the
snapshot and rollback); on success snapshots the fresh clone as
`vm-<id>@booted`.  Finally (also when the node was already present) rolls
the worker dataset back to `vm-<id>@booted`.  The returned list carries
the messages passed to logging.error. -/
def ZfsStorageBackend.rollback_vm_storage (tank : String) (devDelay : Nat)
    (vm_id : Nat) (s : ZfsState) : Except PyErr (ZfsState × List String) :=
  let vm_zvol := zfsDevPath tank vm_id
  let vm_snap := zfsVmSnap tank vm_id
  if vm_zvol ∈ s.devNodes then
    match zfsRollbackCmd (zfsDataset tank vm_id) vm_snap s with
    | .error e => .error e
    | .ok s' => .ok (s', [])
  else
    match zfsCloneCmd (zfsBaseSnap tank) (zfsDataset tank vm_id) s with
    | .error e => .error e
    | .ok s1 =>
      if pollForDevice 120 0 devDelay then
        let s2 := { s1 with devNodes := vm_zvol :: s1.devNodes }
        match zfsSnapshotCmd (zfsDataset tank vm_id) vm_snap s2 with
        | .error e => .error e
        | .ok s3 =>
          match zfsRollbackCmd (zfsDataset tank vm_id) vm_snap s3 with
          | .error e => .error e
          | .ok s4 => .ok (s4, [])
      else
        .ok (s1, ["Failed to see " ++ vm_zvol ++ " created after executing zfs clone command."])

/-- ZfsStorageBackend.get_vm_disk_path needs the `_install_info` attribute
(storage.py line 93); the attribute is set only by
StorageBackendBase.__init__ (line 23), and ZfsStorageBackend.__init__
(line 46) does not call it, so on an instance as actually constructed the
attribute is absent. -/
structure ZfsBackendObj where
  installInfo : Option InstallInfo
deriving DecidableEq, Repr

/-- ZfsStorageBackend.__init__ (storage.py lines 46-47): only runs
check_tools (which sets no attributes), so `_install_info` is left
unset. -/
def ZfsStorageBackend.new : ZfsBackendObj :=
  { installInfo := none }

/-- Python str() rendering of an optional string for f-string
interpolation: `None` renders as "None". -/
def pyStr : Option String → String
  | none => "None"
  | some v => v

/-- ZfsStorageBackend.get_vm_disk_path (storage.py lines 92-94): reads
`self._install_info["zfs_tank_name"]` — AttributeError when
`_install_info` was never set — and formats
`phy:/dev/zvol/<tank>/vm-<id>,hda,w`. -/
def ZfsStorageBackend.get_vm_disk_path (self : ZfsBackendObj) (vm_id : Nat) :
    Except PyErr String :=
  match self.installInfo with
  | none => .error .attributeError
  | some info =>
      .ok ("phy:/dev/zvol/" ++ pyStr info.zfs_tank_name ++ "/vm-" ++ toString vm_id ++ ",hda,w")

/-! ## storage.py — qcow2 (backing-file image) backend -/

/-- A qcow2 image file: an optional backing-file path and an optional
local data overlay.  `data = none` means no cluster of the overlay has
been written, so reads fall through to the backing file; the file object
itself is writable (writes would populate `data`). -/
structure QFile where
  backing : Option String
  data : Option Content
deriving DecidableEq, Repr

/-- The volumes directory of the library dir, modelled as an association
list from paths to image files. -/
abbrev Fs := List (String × QFile)

/-- Worker image path `<libDir>/volumes/vm-<id>.img` (storage.py lines
167, 172, 185); `libDir` models the `LIB_DIR` configuration value defined
in config.py line 8. -/
def qcow2VmPath (libDir : String) (vm_id : Nat) : String :=
  libDir ++ "/volumes/vm-" ++ toString vm_id ++ ".img"

/-- Base image path `<libDir>/volumes/vm-0.img`; the relative
`backing_file=vm-0.img` argument (storage.py line 184) resolves against
the overlay's own directory, i.e. to this path. -/
def qcow2BasePath (libDir : String) : String :=
  libDir ++ "/volumes/vm-0.img"

/-- os.unlink (storage.py lines 170-173): removes the directory entry for
the path, raising FileNotFoundError when no such entry exists. -/
def osUnlink (p : String) (fs : Fs) : Except PyErr Fs :=
  match findVal fs p with
  | some _ => .ok (fs.filter fun kv => kv.1 ≠ p)
  | none => .error .fileNotFoundError

/-- Content read from an image file: a written overlay cluster wins,
otherwise the read falls through to the backing file's data.  One backing
level suffices for the layout this code builds (worker overlays backed
directly by vm-0.img, spec §4.3). -/
def readDisk (fs : Fs) (p : String) : Option Content :=
  match findVal fs p with
  | none => none
  | some f =>
    match f.data with
    | some c => some c
    | none =>
      match f.backing with
      | none => none
      | some b =>
        match findVal fs b with
        | none => none
        | some g => g.data

/-- Qcow2StorageBackend.rollback_vm_storage (storage.py lines 169-188):
unlinks the worker's image file, treating FileNotFoundError as success
(`except FileNotFoundError: pass`), then runs
`qemu-img create -f qcow2 -o backing_file=vm-0.img <libDir>/volumes/vm-<id>.img`,
which writes a fresh, writable overlay with no local data and the base
image as backing file. -/
def Qcow2StorageBackend.rollback_vm_storage (libDir : String) (vm_id : Nat)
    (fs : Fs) : Fs :=
  let p := qcow2VmPath libDir vm_id
  let fs1 :=
    match osUnlink p fs with
    | .ok fs' => fs'
    | .error _ => fs
  (p, { backing := some (qcow2BasePath libDir), data := none }) :: fs1

/-- Qcow2StorageBackend.get_vm_disk_path (storage.py lines 166-167): pure
string formatting of the tap descriptor for the worker's image file. -/
def Qcow2StorageBackend.get_vm_disk_path (libDir : String) (vm_id : Nat) : String :=
  "tap:qcow2:" ++ libDir ++ "/volumes/vm-" ++ toString vm_id ++ ".img,xvda,w"

/-! ## storage.py — ZFS base-volume installation -/

/-- Test whether the needle character sequence starts the haystack. -/
def leadsWith : List Char → List Char → Bool
  | [], _ => true
  | _ :: _, [] => false
  | a :: xs, b :: ys => a == b && leadsWith xs ys

/-- Test whether the needle occurs as a contiguous subsequence of the
haystack. -/
def containsSeq (needle : List Char) : List Char → Bool
  | [] => leadsWith needle []
  | c :: t => leadsWith needle (c :: t) || containsSeq needle t

/-- Python `needle in haystack` on byte/character strings. -/
def strHasSub (hay needle : String) : Bool :=
  containsSeq needle.data hay.data

/-- CalledProcessError with the captured output of the failed command. -/
structure CPError where
  output : String
deriving DecidableEq, Repr

/-- Possible outcomes of `zfs destroy -Rfr <tank>/vm-0` (storage.py lines
60-63), with the diagnostic text the tool writes in each failure case. -/
inductive DestroyOutcome where
  | ok
  | absent
  | busy
deriving DecidableEq, Repr

/-- Modelled from the spec: §6 volume-manager destroy command.  Succeeds,
or fails reporting "dataset does not exist" when the target is already
absent, or fails with some other diagnostic (here: a busy dataset). -/
def zfsDestroyCmd : DestroyOutcome → Except CPError Unit
  | .ok => .ok ()
  | .absent => .error { output := "cannot open tank/vm-0: dataset does not exist" }
  | .busy => .error { output := "cannot destroy tank/vm-0: dataset is busy" }

/-- ZfsStorageBackend.initialize_vm0_volume (storage.py lines 58-84):
tries `zfs destroy -Rfr` on the prior vm-0 volume, and when it fails with
any diagnostic other than "dataset does not exist" merely logs the
failure (lines 64-68) and continues; then tries `zfs create -V` and on
failure logs (lines 82-84) and returns.  Every CalledProcessError is
caught, so the function always returns normally; the Boolean reports
whether the new volume was created and the list carries the logged error
messages. -/
def ZfsStorageBackend.initialize_vm0_volume (destroyRes : DestroyOutcome)
    (createOk : Bool) : Except PyErr (Bool × List String) :=
  let destroyLogs :=
    match zfsDestroyCmd destroyRes with
    | .ok _ => []
    | .error e =>
      if strHasSub e.output "dataset does not exist" then []
      else ["Failed to destroy the existing ZFS volume tank/vm-0."]
  if createOk then
    .ok (true, destroyLogs)
  else
    .ok (false, destroyLogs ++ ["Failed to create a new volume using zfs create."])

/-! ## run.py — the per-worker restore orchestrator -/

/-- Steps of `run_vm` recorded in execution order. -/
inductive Step where
  | destroyInstance
  | unlinkImage
  | rollbackStorage
  | restoreVm
  | logRestoreFailure
  | logQemuLog
  | attachMedia
deriving DecidableEq, Repr

/-- Environment of external outcomes a `run_vm` invocation encounters:
whether a hypervisor instance with the worker's name is registered (so
`xl destroy` succeeds), whether a stale image file exists for the unlink,
the outcome of the storage-backend acquisition and rollback calls
(supplied as a value so the orchestration control flow can be studied
independently of the selector's constructor defect), whether `xl restore`
succeeds, whether the per-worker qemu diagnostic log file is readable,
and whether the monitor-command media attach succeeds. -/
structure RunEnv where
  instanceRunning : Bool
  staleImage : Bool
  backendResult : Except PyErr Unit
  restoreOk : Bool
  qemuLogReadable : Bool
  attachOk : Bool

/-- The `xl destroy vm-<id>` invocation (run.py line 21): exits nonzero —
raising CalledProcessError through check_output — when no instance with
that name is registered. -/
def xlDestroy (running : Bool) : Except PyErr Unit :=
  if running then .ok () else .error .calledProcessError

/-- The try/except around `xl destroy` (run.py lines 20-23): a
CalledProcessError is swallowed by `pass`. -/
def tryDestroy (running : Bool) : Unit :=
  match xlDestroy running with
  | .ok _ => ()
  | .error _ => ()

/-- The try/except around `os.unlink` of the stale worker image (run.py
lines 25-28): FileNotFoundError is swallowed by `pass`. -/
def tryUnlinkStale (present : Bool) : Unit :=
  match (if present then Except.ok () else Except.error PyErr.fileNotFoundError) with
  | .ok _ => ()
  | .error _ => ()

/-- run_vm (run.py lines 16-45).  In order: force-terminate any instance
named vm-<id> tolerating absence; unlink the stale worker image
tolerating absence; obtain the storage backend and roll the worker's
storage back (any raised error propagates); run `xl restore`, and when it
fails log the failure, then read and log the per-worker qemu diagnostic
log — the read is unguarded, so a missing log file raises
FileNotFoundError, and otherwise execution falls through; finally issue
the qemu-monitor-command media attach (check=True, so its failure
raises).  Returns the executed steps in order. -/
def run_vm (env : RunEnv) (vm_id : Nat) : Except PyErr (List Step) :=
  let _u1 := tryDestroy env.instanceRunning
  let _u2 := tryUnlinkStale env.staleImage
  let t2 : List Step := [.destroyInstance, .unlinkImage]
  match env.backendResult with
  | .error e => .error e
  | .ok _ =>
    let t3 := t2 ++ [Step.rollbackStorage]
    if env.restoreOk then
      let t4 := t3 ++ [Step.restoreVm]
      if env.attachOk then .ok (t4 ++ [Step.attachMedia])
      else .error .calledProcessError
    else
      let t4 := t3 ++ [Step.restoreVm, Step.logRestoreFailure]
      if env.qemuLogReadable then
        let t5 := t4 ++ [Step.logQemuLog]
        if env.attachOk then .ok (t5 ++ [Step.attachMedia])
        else .error .calledProcessError
      else
        .error .fileNotFoundError

/-! ## Supporting lemmas -/

theorem findVal_cons_self {α : Type} (k : String) (v : α) (t : List (String × α)) :
    findVal ((k, v) :: t) k = some v := by
  simp [findVal]

theorem findVal_cons {α : Type} (k k' : String) (v : α) (t : List (String × α)) :
    findVal ((k', v) :: t) k = if k' = k then some v else findVal t k := by
  simp [findVal]

theorem findVal_setVol_self (l : List (String × Content)) (k : String) (c w : Content)
    (h : findVal l k = some w) : findVal (setVol l k c) k = some c := by
  induction l with
  | nil => exact absurd h (by simp [findVal])
  | cons hd t ih =>
    obtain ⟨k', c'⟩ := hd
    by_cases hk : k' = k
    · subst hk
      simp [setVol, findVal]
    · rw [findVal_cons, if_neg hk] at h
      simp only [setVol]
      rw [if_neg hk, findVal_cons, if_neg hk]
      exact ih h

theorem findVal_filter_ne {α : Type} (l : List (String × α)) (p q : String)
    (h : q ≠ p) : findVal (l.filter fun kv => kv.1 ≠ p) q = findVal l q := by
  induction l with
  | nil => rfl
  | cons hd t ih =>
    obtain ⟨k, v⟩ := hd
    rw [List.filter_cons]
    by_cases hk : k = p
    · subst hk
      rw [if_neg (by simp)]
      rw [findVal_cons, if_neg (fun hh => h hh.symm)]
      exact ih
    · rw [if_pos (by simp [hk])]
      rw [findVal_cons, findVal_cons]
      by_cases hkq : k = q
      · rw [if_pos hkq, if_pos hkq]
      · rw [if_neg hkq, if_neg hkq]
        exact ih

theorem findVal_filter_self {α : Type} (l : List (String × α)) (p : String) :
    findVal (l.filter fun kv => kv.1 ≠ p) p = none := by
  induction l with
  | nil => rfl
  | cons hd t ih =>
    obtain ⟨k, v⟩ := hd
    rw [List.filter_cons]
    by_cases hk : k = p
    · subst hk
      rw [if_neg (by simp)]
      exact ih
    · rw [if_pos (by simp [hk])]
      rw [findVal_cons, if_neg hk]
      exact ih

theorem filter_of_findVal_none {α : Type} (l : List (String × α)) (p : String)
    (h : findVal l p = none) : (l.filter fun kv => kv.1 ≠ p) = l := by
  induction l with
  | nil => rfl
  | cons hd t ih =>
    obtain ⟨k, v⟩ := hd
    rw [findVal_cons] at h
    by_cases hk : k = p
    · rw [if_pos hk] at h
      exact absurd h (by simp)
    · rw [if_neg hk] at h
      rw [List.filter_cons, if_pos (by simp [hk])]
      rw [ih h]

theorem pollForDevice_eq (a : Nat) : ∀ e d : Nat, e ≤ d →
    pollForDevice a e d = decide (d < e + a) := by
  induction a with
  | zero =>
    intro e d h
    simp only [pollForDevice, Nat.add_zero]
    symm
    rw [decide_eq_false_iff_not]
    omega
  | succ n ih =>
    intro e d h
    simp only [pollForDevice]
    by_cases hc : e < d
    · rw [if_pos hc, ih (e + 1) d hc]
      have harith : e + 1 + n = e + (n + 1) := by omega
      rw [harith]
    · rw [if_neg hc]
      symm
      rw [decide_eq_true_eq]
      omega

theorem pollForDevice_budget (d : Nat) (h : d < 120) :
    pollForDevice 120 0 d = true := by
  rw [pollForDevice_eq 120 0 d (Nat.zero_le d), decide_eq_true_eq]
  omega

theorem pollForDevice_timeout (d : Nat) (h : 120 ≤ d) :
    pollForDevice 120 0 d = false := by
  rw [pollForDevice_eq 120 0 d (Nat.zero_le d), decide_eq_false_iff_not]
  omega

/-! ## ZFS rollback invariant -/

/-- Pristine worker state after a successful ZFS rollback: the worker
dataset exists in the writable store with exactly the base snapshot's
content, its device node is materialized, and its own `@booted` snapshot
and the base snapshot both hold that content. -/
def zfsPristine (tank : String) (vm_id : Nat) (c : Content) (s : ZfsState) : Prop :=
  findVal s.volumes (zfsDataset tank vm_id) = some c ∧
  zfsDevPath tank vm_id ∈ s.devNodes ∧
  findVal s.snapshots (zfsVmSnap tank vm_id) = some c ∧
  findVal s.snapshots (zfsBaseSnap tank) = some c

/-- Precondition under which the claims describe `rollback_vm_storage`:
the base snapshot exists with content `c`, and the worker is either in
the stale state a previous completed run leaves behind (device node
present, dataset present, its `@booted` snapshot frozen at the base
content) or in the fresh state of a first run (no device node, no
dataset, no worker snapshot). -/
def zfsRollbackPre (tank : String) (vm_id : Nat) (c : Content) (s : ZfsState) : Prop :=
  findVal s.snapshots (zfsBaseSnap tank) = some c ∧
  ((zfsDevPath tank vm_id ∈ s.devNodes ∧
    (findVal s.volumes (zfsDataset tank vm_id)).isSome = true ∧
    findVal s.snapshots (zfsVmSnap tank vm_id) = some c)
   ∨
   (zfsDevPath tank vm_id ∉ s.devNodes ∧
    findVal s.volumes (zfsDataset tank vm_id) = none ∧
    findVal s.snapshots (zfsVmSnap tank vm_id) = none))

theorem zfsPristine_pre (tank : String) (vm_id : Nat) (c : Content) (s : ZfsState)
    (h : zfsPristine tank vm_id c s) : zfsRollbackPre tank vm_id c s := by
  obtain ⟨hv, hd, hs, hb⟩ := h
  exact ⟨hb, Or.inl ⟨hd, by rw [hv]; rfl, hs⟩⟩

theorem zfs_rollback_establishes (tank : String) (vm_id : Nat) (c : Content)
    (devDelay : Nat) (s : ZfsState)
    (hpre : zfsRollbackPre tank vm_id c s) (hd : devDelay < 120) :
    ∃ s', ZfsStorageBackend.rollback_vm_storage tank devDelay vm_id s = .ok (s', []) ∧
      zfsPristine tank vm_id c s' := by
  obtain ⟨hbase, hcase⟩ := hpre
  rcases hcase with ⟨hdev, hvol, hsnap⟩ | ⟨hdev, hvol, hsnap⟩
  · obtain ⟨w, hw⟩ := Option.isSome_iff_exists.mp hvol
    refine ⟨{ s with volumes := setVol s.volumes (zfsDataset tank vm_id) c }, ?_, ?_⟩
    · simp only [ZfsStorageBackend.rollback_vm_storage, zfsRollbackCmd]
      rw [if_pos hdev, hsnap, hw]
    · exact ⟨findVal_setVol_self s.volumes (zfsDataset tank vm_id) c w hw, hdev, hsnap, hbase⟩
  · refine ⟨{ s with
        volumes := (zfsDataset tank vm_id, c) :: s.volumes,
        snapshots := (zfsVmSnap tank vm_id, c) :: s.snapshots,
        devNodes := zfsDevPath tank vm_id :: s.devNodes }, ?_, ?_, ?_, ?_, ?_⟩
    · simp only [ZfsStorageBackend.rollback_vm_storage, zfsCloneCmd, zfsSnapshotCmd,
        zfsRollbackCmd]
      rw [if_neg hdev, hbase, hvol]
      rw [pollForDevice_budget devDelay hd]
      simp only [if_true, findVal_cons_self, hsnap, setVol, if_pos rfl]
    · exact findVal_cons_self (zfsDataset tank vm_id) c s.volumes
    · exact List.mem_cons_self (zfsDevPath tank vm_id) s.devNodes
    · exact findVal_cons_self (zfsVmSnap tank vm_id) c s.snapshots
    · rw [findVal_cons]
      by_cases hb : zfsVmSnap tank vm_id = zfsBaseSnap tank
      · rw [if_pos hb]
      · rw [if_neg hb]
        exact hbase

theorem zfs_rollback_of_pristine (tank : String) (vm_id : Nat) (c : Content)
    (devDelay : Nat) (s : ZfsState) (h : zfsPristine tank vm_id c s) :
    ∃ s', ZfsStorageBackend.rollback_vm_storage tank devDelay vm_id s = .ok (s', []) ∧
      zfsPristine tank vm_id c s' := by
  obtain ⟨hv, hdev, hs, hb⟩ := h
  refine ⟨{ s with volumes := setVol s.volumes (zfsDataset tank vm_id) c }, ?_, ?_⟩
  · simp only [ZfsStorageBackend.rollback_vm_storage, zfsRollbackCmd]
    rw [if_pos hdev, hs, hv]
  · exact ⟨findVal_setVol_self s.volumes (zfsDataset tank vm_id) c c hv, hdev, hs, hb⟩

/-! ## qcow2 rollback lemmas -/

theorem qcow2_rollback_eq (libDir : String) (vm_id : Nat) (fs : Fs) :
    Qcow2StorageBackend.rollback_vm_storage libDir vm_id fs =
      (qcow2VmPath libDir vm_id,
        { backing := some (qcow2BasePath libDir), data := none }) ::
        fs.filter (fun kv => kv.1 ≠ qcow2VmPath libDir vm_id) := by
  cases h : findVal fs (qcow2VmPath libDir vm_id) with
  | none =>
    simp only [Qcow2StorageBackend.rollback_vm_storage, osUnlink, h]
    rw [filter_of_findVal_none fs _ h]
  | some v =>
    simp only [Qcow2StorageBackend.rollback_vm_storage, osUnlink, h]

theorem qcow2_rollback_read (libDir : String) (vm_id : Nat) (fs : Fs) (c : Content)
    (hbase : findVal fs (qcow2BasePath libDir) = some { backing := none, data := some c })
    (hworker : qcow2VmPath libDir vm_id ≠ qcow2BasePath libDir) :
    readDisk (Qcow2StorageBackend.rollback_vm_storage libDir vm_id fs)
      (qcow2VmPath libDir vm_id) = some c := by
  rw [qcow2_rollback_eq]
  simp only [readDisk, findVal_cons_self]
  rw [findVal_cons, if_neg hworker]
  rw [findVal_filter_ne fs (qcow2VmPath libDir vm_id) (qcow2BasePath libDir)
    (fun hh => hworker hh.symm)]
  rw [hbase]

theorem qcow2_rollback_idem (libDir : String) (vm_id : Nat) (fs : Fs) :
    Qcow2StorageBackend.rollback_vm_storage libDir vm_id
      (Qcow2StorageBackend.rollback_vm_storage libDir vm_id fs) =
      Qcow2StorageBackend.rollback_vm_storage libDir vm_id fs := by
  rw [qcow2_rollback_eq, qcow2_rollback_eq]
  congr 1
  rw [List.filter_cons, if_neg (by simp)]
  exact filter_of_findVal_none _ _ (findVal_filter_self fs _)

/-! ## Claim theorems -/

/-- C1: for every worker vm_id, `rollback_vm_storage(vm_id)` is
idempotent: after it returns, the worker's Volume exists (a writable
dataset resp. a fresh writable overlay image), and its content is
identical to the base Snapshot's content `c`; calling it twice in a row
leaves the Volume content identical both times.  The ZFS precondition
covers both tolerated entry states — no prior Volume at all, or a stale
Volume left by a previous completed run — and `zfsPristine` records the
identical pristine outcome; `devDelay < 120` states that the device node
materializes within the poll budget on the first (cloning) call, the
second call being independent of any delay.  For the qcow2 backend the
fresh overlay reads back the base image's content and the rollback
function is literally idempotent on the filesystem state. -/
theorem rollback_vm_storage_idempotent_pristine
    (tank libDir : String) (vm_id : Nat) (c : Content) (d d' : Nat)
    (s : ZfsState) (fs : Fs)
    (hpre : zfsRollbackPre tank vm_id c s) (hd : d < 120)
    (hbase : findVal fs (qcow2BasePath libDir) = some { backing := none, data := some c })
    (hworker : qcow2VmPath libDir vm_id ≠ qcow2BasePath libDir) :
    (∃ s₁, ZfsStorageBackend.rollback_vm_storage tank d vm_id s = .ok (s₁, []) ∧
       zfsPristine tank vm_id c s₁ ∧
       ∃ s₂, ZfsStorageBackend.rollback_vm_storage tank d' vm_id s₁ = .ok (s₂, []) ∧
         zfsPristine tank vm_id c s₂) ∧
    (readDisk (Qcow2StorageBackend.rollback_vm_storage libDir vm_id fs)
        (qcow2VmPath libDir vm_id) = some c ∧
     Qcow2StorageBackend.rollback_vm_storage libDir vm_id
        (Qcow2StorageBackend.rollback_vm_storage libDir vm_id fs) =
       Qcow2StorageBackend.rollback_vm_storage libDir vm_id fs) := by
  refine ⟨?_, qcow2_rollback_read libDir vm_id fs c hbase hworker,
    qcow2_rollback_idem libDir vm_id fs⟩
  obtain ⟨s₁, h1, hp1⟩ := zfs_rollback_establishes tank vm_id c d s hpre hd
  obtain ⟨s₂, h2, hp2⟩ := zfs_rollback_of_pristine tank vm_id c d' s₁ hp1
  exact ⟨s₁, h1, hp1, s₂, h2, hp2⟩

/-- Witness for C1 at a concrete fresh state: tank "tank", base snapshot
content 7, worker 1, device delay 0 on the first call and 5 on the
second, and a volumes directory holding only the base image. -/
theorem rollback_vm_storage_idempotent_pristine_witness :
    (∃ s₁, ZfsStorageBackend.rollback_vm_storage "tank" 0 1
        ⟨[("tank/vm-0", 7)], [("tank/vm-0@booted", 7)], []⟩ = .ok (s₁, []) ∧
       zfsPristine "tank" 1 7 s₁ ∧
       ∃ s₂, ZfsStorageBackend.rollback_vm_storage "tank" 5 1 s₁ = .ok (s₂, []) ∧
         zfsPristine "tank" 1 7 s₂) ∧
    (readDisk (Qcow2StorageBackend.rollback_vm_storage "/var/lib/drakrun" 1
        [("/var/lib/drakrun/volumes/vm-0.img", { backing := none, data := some 7 })])
        (qcow2VmPath "/var/lib/drakrun" 1) = some 7 ∧
     Qcow2StorageBackend.rollback_vm_storage "/var/lib/drakrun" 1
        (Qcow2StorageBackend.rollback_vm_storage "/var/lib/drakrun" 1
          [("/var/lib/drakrun/volumes/vm-0.img", { backing := none, data := some 7 })]) =
       Qcow2StorageBackend.rollback_vm_storage "/var/lib/drakrun" 1
          [("/var/lib/drakrun/volumes/vm-0.img", { backing := none, data := some 7 })]) :=
  rollback_vm_storage_idempotent_pristine "tank" "/var/lib/drakrun" 1 7 0 5
    ⟨[("tank/vm-0", 7)], [("tank/vm-0@booted", 7)], []⟩
    [("/var/lib/drakrun/volumes/vm-0.img", { backing := none, data := some 7 })]
    ⟨by decide, Or.inr ⟨by decide, by decide, by decide⟩⟩
    (by decide) (by decide) (by decide)

/-- State on which C2's timeout path is exercised: the base snapshot
exists and worker 1 has neither dataset nor device node. -/
def c2State : ZfsState :=
  ⟨[("tank/vm-0", 7)], [("tank/vm-0@booted", 7)], ["/dev/zvol/tank/vm-0"]⟩

/-- State after the timeout path: the clone was issued (dataset created)
but no device node appeared, no worker snapshot was taken and no rollback
was performed. -/
def c2StateAfter : ZfsState :=
  ⟨[("tank/vm-1", 7), ("tank/vm-0", 7)], [("tank/vm-0@booted", 7)], ["/dev/zvol/tank/vm-0"]⟩

/-- C2: when the cloned worker device node never appears (delay 120, i.e.
beyond the 120-attempt budget), `rollback_vm_storage` for the block
backend terminates — the embedded loop is bounded by construction and
`pollForDevice` returns false — but then merely logs the failure message
and RETURNS NORMALLY (`.ok`, not an exception): no DeviceNotReady error
is raised, the worker's device node is still absent, and the caller
cannot distinguish this from success, so the run can proceed with a disk
that was never confirmed present.  This refutes the error half of the
claim while confirming the bounded-termination half. -/
theorem zfs_rollback_device_timeout_returns_normally :
    ZfsStorageBackend.rollback_vm_storage "tank" 120 1 c2State =
      .ok (c2StateAfter,
        ["Failed to see /dev/zvol/tank/vm-1 created after executing zfs clone command."]) ∧
    zfsDevPath "tank" 1 ∉ c2StateAfter.devNodes ∧
    pollForDevice 120 0 120 = false := by
  refine ⟨rfl, by decide, by decide⟩

/-- C3: `get_vm_disk_path` on the ZFS backend as actually constructed
raises AttributeError instead of returning the descriptor string:
`ZfsStorageBackend.__init__` never stores `_install_info` (it does not
call the base-class initializer), and line 93 reads that attribute.  This
refutes "never fails for a well-formed vm_id" on the code as written. -/
theorem zfs_get_vm_disk_path_attribute_error :
    ZfsStorageBackend.get_vm_disk_path ZfsStorageBackend.new 1 = .error .attributeError ∧
    (∀ tank : String, ∀ vm_id : Nat,
      ZfsStorageBackend.get_vm_disk_path
          ⟨some ⟨"zfs", some tank, "100G", "", 1, false, none⟩⟩ vm_id =
        .ok ("phy:/dev/zvol/" ++ tank ++ "/vm-" ++ toString vm_id ++ ",hda,w")) :=
  ⟨rfl, fun _ _ => rfl⟩

/-- C4: for every install descriptor naming a known backend ("qcow2" or
"zfs"), `get_storage_backend` raises TypeError: the selector calls the
class with `install_info` as one positional argument while both
`__init__` methods accept none. -/
theorem get_storage_backend_known_backend_type_error (info : InstallInfo)
    (h : info.storage_backend = "qcow2" ∨ info.storage_backend = "zfs") :
    get_storage_backend info = .error .typeError := by
  rcases h with h | h
  · unfold get_storage_backend
    rw [h, if_pos rfl]
    rfl
  · unfold get_storage_backend
    rw [h, if_neg (by decide), if_pos rfl]
    rfl

/-- Descriptor selecting the qcow2 backend, used as C4's witness input. -/
def infoQcow : InstallInfo :=
  ⟨"qcow2", none, "100G", "/tmp/win10.iso", 4, false, none⟩

/-- Witness for C4 at the concrete qcow2 descriptor. -/
theorem get_storage_backend_known_backend_type_error_witness :
    get_storage_backend infoQcow = .error .typeError :=
  get_storage_backend_known_backend_type_error infoQcow (Or.inl rfl)

/-- Descriptor with an unknown backend name, used for C5. -/
def infoLvm : InstallInfo :=
  ⟨"lvm", none, "100G", "/tmp/win10.iso", 4, false, none⟩

/-- C5 counterexample: on an unknown backend name the selector raises the
dictionary-lookup KeyError, which is not the ConfigurationError the claim
names (no ConfigurationError class exists in the source at all). -/
theorem get_storage_backend_unknown_not_configuration_error :
    get_storage_backend infoLvm = .error (.keyError "lvm") ∧
    PyErr.keyError "lvm" ≠ PyErr.configurationError := by
  refine ⟨rfl, by decide⟩

/-- C5 (amended): for every descriptor whose backend name is neither
"qcow2" nor "zfs", `get_storage_backend` fails immediately inside the
selector with a KeyError carrying the unknown name — before any backend
instance is constructed, hence before any per-worker operation could be
invoked. -/
theorem get_storage_backend_unknown_key_error (info : InstallInfo)
    (h1 : info.storage_backend ≠ "qcow2") (h2 : info.storage_backend ≠ "zfs") :
    get_storage_backend info = .error (.keyError info.storage_backend) := by
  unfold get_storage_backend
  rw [if_neg h1, if_neg h2]

/-- Witness for the amended C5 at the concrete "lvm" descriptor. -/
theorem get_storage_backend_unknown_key_error_witness :
    get_storage_backend infoLvm = .error (.keyError infoLvm.storage_backend) :=
  get_storage_backend_unknown_key_error infoLvm (by decide) (by decide)

/-- C6: for the backing-file image backend, `rollback_vm_storage` first
unconditionally removes any existing worker image entry — the unlink's
FileNotFoundError on an absent file is caught, so the equation holds for
every filesystem state, and the second conjunct exhibits the caught error
in the absent case — and then creates a new image for vm_id whose backing
file is the base image vm-0.img. -/
theorem qcow2_rollback_removes_then_creates (libDir : String) (vm_id : Nat) (fs : Fs) :
    Qcow2StorageBackend.rollback_vm_storage libDir vm_id fs =
      (qcow2VmPath libDir vm_id,
        { backing := some (qcow2BasePath libDir), data := none }) ::
        fs.filter (fun kv => kv.1 ≠ qcow2VmPath libDir vm_id) ∧
    (findVal fs (qcow2VmPath libDir vm_id) = none →
      osUnlink (qcow2VmPath libDir vm_id) fs = .error .fileNotFoundError) := by
  refine ⟨qcow2_rollback_eq libDir vm_id fs, fun h => ?_⟩
  simp only [osUnlink, h]

/-- Witness for C6 on the empty volumes directory: the unlink fails with
FileNotFoundError (tolerated) and the rollback still yields exactly the
fresh overlay backed by vm-0.img. -/
theorem qcow2_rollback_removes_then_creates_witness :
    findVal ([] : Fs) (qcow2VmPath "/var/lib/drakrun" 1) = none ∧
    osUnlink (qcow2VmPath "/var/lib/drakrun" 1) ([] : Fs) = .error .fileNotFoundError ∧
    Qcow2StorageBackend.rollback_vm_storage "/var/lib/drakrun" 1 [] =
      [(qcow2VmPath "/var/lib/drakrun" 1,
        { backing := some (qcow2BasePath "/var/lib/drakrun"), data := none })] :=
  ⟨rfl, (qcow2_rollback_removes_then_creates "/var/lib/drakrun" 1 []).2 rfl, by
    rw [(qcow2_rollback_removes_then_creates "/var/lib/drakrun" 1 []).1]
    rfl⟩

/-- Environment of C7's failing runs: no stale instance or image, the
storage rollback succeeds, `xl restore` fails; in the first run the qemu
diagnostic log is readable, in the second it is missing. -/
def c7EnvLogReadable : RunEnv :=
  ⟨false, false, .ok (), false, true, true⟩

/-- Environment identical to `c7EnvLogReadable` except that the per-worker
qemu diagnostic log file cannot be read. -/
def c7EnvLogMissing : RunEnv :=
  ⟨false, false, .ok (), false, false, true⟩

/-- C7: when `xl restore` fails, run_vm logs the failure and the captured
qemu diagnostic log but then CONTINUES to the media-attach step and
returns normally — the restore failure is never propagated; and the log
read is unguarded, so when the log file is missing run_vm raises
FileNotFoundError, replacing the restore failure.  Both halves refute the
claim's "propagates the failure" and "best-effort log capture". -/
theorem run_vm_swallows_restore_failure :
    run_vm c7EnvLogReadable 1 =
      .ok [.destroyInstance, .unlinkImage, .rollbackStorage, .restoreVm,
           .logRestoreFailure, .logQemuLog, .attachMedia] ∧
    run_vm c7EnvLogMissing 1 = .error .fileNotFoundError :=
  ⟨rfl, rfl⟩

/-- C8: `initialize_vm0_volume` never raises: when `zfs create` fails the
function logs and returns normally with no volume created (first
conjunct — no AllocationFailed, the result is `.ok`), and when the
destroy pre-step fails for a reason other than "dataset does not exist"
the failure is only logged and execution still proceeds to create
(second conjunct); the absent-dataset case of the first conjunct shows
the tolerated destroy produces no log at all. -/
theorem zfs_initialize_vm0_volume_swallows_failures :
    ZfsStorageBackend.initialize_vm0_volume .absent false =
      .ok (false, ["Failed to create a new volume using zfs create."]) ∧
    ZfsStorageBackend.initialize_vm0_volume .busy true =
      .ok (true, ["Failed to destroy the existing ZFS volume tank/vm-0."]) :=
  ⟨rfl, rfl⟩

/-- C9: serializing an installation descriptor with save and parsing it
back with load restores every field, including a None pool/tank field
(serialized as JSON null) for the backing-file backend kind. -/
theorem install_info_round_trip (i : InstallInfo) :
    InstallInfo.load (InstallInfo.save i) = some i := by
  obtain ⟨sb, tank, ds, iso, mv, eu, sha⟩ := i
  cases tank <;> cases sha <;> rfl

/-- Witness for C9 at a concrete qcow2 descriptor with absent pool and
checksum fields. -/
theorem install_info_round_trip_witness :
    InstallInfo.load (InstallInfo.save ⟨"qcow2", none, "100G", "/tmp/win10.iso", 10, true, none⟩) =
      some ⟨"qcow2", none, "100G", "/tmp/win10.iso", 10, true, none⟩ :=
  install_info_round_trip ⟨"qcow2", none, "100G", "/tmp/win10.iso", 10, true, none⟩

/-- C10: the orchestrator's first step force-terminates any instance
registered under the worker's name and tolerates its absence: run_vm's
result is identical whether or not an instance was running (the caught
CalledProcessError changes nothing), and in particular with no instance
running the remaining steps — stale-image unlink, storage rollback,
restore and media attach — all execute. -/
theorem run_vm_tolerates_missing_instance (env : RunEnv) (vm_id : Nat) :
    run_vm { env with instanceRunning := false } vm_id =
      run_vm { env with instanceRunning := true } vm_id ∧
    (env.backendResult = .ok () → env.restoreOk = true → env.attachOk = true →
      run_vm { env with instanceRunning := false } vm_id =
        .ok [.destroyInstance, .unlinkImage, .rollbackStorage, .restoreVm, .attachMedia]) := by
  obtain ⟨ir, st, br, ro, ql, ao⟩ := env
  refine ⟨rfl, fun h1 h2 h3 => ?_⟩
  simp only at h1 h2 h3
  subst h1
  subst h2
  subst h3
  rfl

/-- Environment of C10's witness: every external step succeeds. -/
def c10Env : RunEnv :=
  ⟨true, true, .ok (), true, true, true⟩

/-- Witness for C10 at the all-succeeding environment. -/
theorem run_vm_tolerates_missing_instance_witness :
    run_vm { c10Env with instanceRunning := false } 1 =
      run_vm { c10Env with instanceRunning := true } 1 ∧
    run_vm { c10Env with instanceRunning := false } 1 =
      .ok [.destroyInstance, .unlinkImage, .rollbackStorage, .restoreVm, .attachMedia] :=
  ⟨(run_vm_tolerates_missing_instance c10Env 1).1,
   (run_vm_tolerates_missing_instance c10Env 1).2 rfl rfl rfl⟩
